import Mathlib

/-!
Verification of the financial-analyst repository's core logic:
intent classification, ticker extraction, the query router
(`src/agent/financial_agent.py`), the NAV-drop analyzer
(`src/backend/langgraph_integration.py`) and the data-fetch helpers
(`src/backend/utils/yf_utils.py`), shallowly embedded in Lean.

Modelling conventions:
* Python numeric prices/thresholds are embedded as rationals (ℚ); the
  algorithms use only field arithmetic and comparisons, which the float
  code computes approximately and the rational embedding computes exactly.
* Python `round(x, 2)` is embedded as `round2` below.
* External network calls (the market-data provider and the LLM) are
  parameters of the embedded functions: an `Except String α` value models
  one upstream call that either raises (`Except.error`) or returns.
* A Python `set` has implementation-defined iteration order; `list(found)`
  is modelled by an enumeration parameter constrained by `IsSetEnum` to
  return the inserted elements, each exactly once, in some order.
-/

/-- ASCII upcasing of one character (all repository queries and tables are
ASCII, where Python's `str.upper` acts exactly like this). -/
def upChar (c : Char) : Char :=
  if 'a' ≤ c && c ≤ 'z' then Char.ofNat (c.toNat - 32) else c

/-- ASCII downcasing of one character (Python `str.lower` on ASCII). -/
def downChar (c : Char) : Char :=
  if 'A' ≤ c && c ≤ 'Z' then Char.ofNat (c.toNat + 32) else c

/-- Python `query.upper()` on ASCII text. -/
def pyUpper (s : String) : String := String.mk (s.data.map upChar)

/-- Python `query.lower()` on ASCII text. -/
def pyLower (s : String) : String := String.mk (s.data.map downChar)

/-- Boolean list-prefix test (used to implement substring containment). -/
def isPrefixB : List Char → List Char → Bool
  | [], _ => true
  | _ :: _, [] => false
  | a :: as, b :: bs => a == b && isPrefixB as bs

/-- Boolean infix test: does `needle` occur contiguously in the haystack? -/
def infixB (needle : List Char) : List Char → Bool
  | [] => needle.isEmpty
  | c :: t => isPrefixB needle (c :: t) || infixB needle t

/-- Python's `k in q` on strings: substring containment. -/
def containsSub (q k : String) : Bool := infixB k.data q.data

/-- Word character for the regex `\b` boundary: `[A-Za-z0-9_]`. -/
def isWordChar (c : Char) : Bool := c.isAlpha || c.isDigit || c == '_'

/-- Split a character list into maximal runs of word characters
(the word-runs that `\b...\b` can delimit). -/
def wordRuns : List Char → List Char → List (List Char)
  | [], acc => if acc.isEmpty then [] else [acc.reverse]
  | c :: t, acc =>
    if isWordChar c then wordRuns t (c :: acc)
    else if acc.isEmpty then wordRuns t [] else acc.reverse :: wordRuns t []

/-- A word-run matches `\b[A-Z]{2,10}\b` iff it is all capital letters and
has length 2..10. -/
def isTickerToken (r : List Char) : Bool :=
  r.all (fun c => 'A' ≤ c && c ≤ 'Z') && decide (2 ≤ r.length) && decide (r.length ≤ 10)

/-- Python `re.findall(r"\b[A-Z]{2,10}\b", query.upper())` from
`FinancialAgent.extract_tickers`. -/
def findTokens (q : String) : List String :=
  ((wordRuns (pyUpper q).data []).filter isTickerToken).map String.mk

/-- The `COMMON_WORDS` stop-word set of `src/agent/financial_agent.py`
(the Python set literal lists a few words twice; set semantics dedups, and
list membership below is insensitive to the duplicates). -/
def COMMON_WORDS : List String :=
  ["WHAT", "THE", "IS", "A", "AN", "OF", "TO", "IN", "FOR",
   "PRICE", "HOW", "ARE", "YOU", "STOCK", "STOCKS", "TELL",
   "ME", "TODAY", "CHECK", "SHOW", "MARKET", "UPDATES",
   "NEWS", "LONG", "BEST", "TERM", "INDIA", "SHORT",
   "BETWEEN", "VS", "VERSUS", "AND", "ON", "ABOUT", "WITH",
   "WHICH", "BETTER", "GOOD", "GIVE", "COMPARE", "CAN", "PLEASE",
   "MY", "ADVISE", "SUGGEST", "LOOKING", "AT", "FORWARD", "INVESTMENT",
   "INVEST", "TRADING", "I", "WANT", "KNOW", "CURRENT", "VALUE"]

/-- The `FINANCE_KEYWORDS` list of `src/agent/financial_agent.py`. -/
def FINANCE_KEYWORDS : List String :=
  ["stock", "stocks", "share", "shares", "equity", "equities",
   "nifty", "sensex", "index", "indices", "market", "markets",
   "invest", "investment", "investing", "trading", "intraday",
   "swing", "long term", "short term", "portfolio", "risk",
   "returns", "profit", "loss", "valuation", "pe ratio", "pe",
   "dividend", "eps", "earnings", "results", "balance sheet",
   "cash flow", "financials", "fundamental", "technical",
   "mutual fund", "mf", "etf", "sip", "brokerage"]

/-- The static alias table `INDIA_TICKER_MAP` of
`src/backend/utils/ticker_map.py`, as an association list. -/
def INDIA_TICKER_MAP : List (String × String) :=
  [("SBI", "SBIN.NS"), ("SBIN", "SBIN.NS"),
   ("HDFC", "HDFCBANK.NS"), ("HDFCBANK", "HDFCBANK.NS"),
   ("ICICI", "ICICIBANK.NS"), ("ICICIBANK", "ICICIBANK.NS"),
   ("AXIS", "AXISBANK.NS"), ("AXISBANK", "AXISBANK.NS"),
   ("KOTAK", "KOTAKBANK.NS"), ("KOTAKBANK", "KOTAKBANK.NS"),
   ("INFY", "INFY.NS"), ("INFOSYS", "INFY.NS"),
   ("TCS", "TCS.NS"), ("TATA CONSULTANCY", "TCS.NS"),
   ("WIPRO", "WIPRO.NS"),
   ("HCL", "HCLTECH.NS"), ("HCLTECH", "HCLTECH.NS"),
   ("TECHM", "TECHM.NS"),
   ("RELIANCE", "RELIANCE.NS"),
   ("LT", "LT.NS"), ("L&T", "LT.NS"),
   ("ADANIPORTS", "ADANIPORTS.NS"),
   ("TITAN", "TITAN.NS"),
   ("MARUTI", "MARUTI.NS"),
   ("TATAMOTORS", "TATAMOTORS.NS"), ("TATA MOTORS", "TATAMOTORS.NS"),
   ("TVS", "TVSMOTOR.NS"),
   ("BAJAJ", "BAJAJ-AUTO.NS"), ("BAJAJAUTO", "BAJAJ-AUTO.NS"),
   ("ITC", "ITC.NS"),
   ("HUL", "HINDUNILVR.NS"), ("HINDUSTAN UNILEVER", "HINDUNILVR.NS"),
   ("NESTLE", "NESTLEIND.NS"),
   ("ASIANPAINTS", "ASIANPAINT.NS"), ("ASIANPAINT", "ASIANPAINT.NS"),
   ("DMART", "DMART.NS"), ("AVENUE SUPERMARTS", "DMART.NS"),
   ("SUNPHARMA", "SUNPHARMA.NS"),
   ("CIPLA", "CIPLA.NS"),
   ("LUPIN", "LUPIN.NS"),
   ("DRREDDY", "DRREDDY.NS"), ("REDDY", "DRREDDY.NS"),
   ("TATASTEEL", "TATASTEEL.NS"),
   ("JSW", "JSWSTEEL.NS"), ("JSWSTEEL", "JSWSTEEL.NS"),
   ("HINDALCO", "HINDALCO.NS"),
   ("ONGC", "ONGC.NS"),
   ("POWERGRID", "POWERGRID.NS"),
   ("NTPC", "NTPC.NS"),
   ("JIO", "RELIANCE.NS"),
   ("AIRTEL", "BHARTIARTL.NS"), ("BHARTI", "BHARTIARTL.NS"),
   ("BAJAJFIN", "BAJFINANCE.NS"), ("BAJFINANCE", "BAJFINANCE.NS"),
   ("BAJAJFINSERV", "BAJAJFINSV.NS"),
   ("ZOMATO", "ZOMATO.NS"),
   ("NYKAA", "NYKAA.NS"),
   ("PAYTM", "PAYTM.NS"),
   ("MCDOWELL", "MCDOWELL-N.NS"),
   ("IRCTC", "IRCTC.NS")]

/-- Python dict lookup `INDIA_TICKER_MAP[token]` guarded by
`token in INDIA_TICKER_MAP`. -/
def aliasLookup (tok : String) : Option String :=
  (INDIA_TICKER_MAP.find? (fun p => p.1 == tok)).map Prod.snd

/-- The predicate `FinancialAgent.is_finance_query`. -/
def is_finance_query (query : String) : Bool :=
  FINANCE_KEYWORDS.any (fun k => containsSub (pyLower query) k)

/-- The classifier `FinancialAgent.classify_intent` (financial_agent.py lines 87-107),
translated branch for branch. -/
def classify_intent (query_lower : String) (tickers : List String) : String :=
  if ["compare", "vs", "versus", "better than", "between"].any
      (fun k => containsSub query_lower k) then
    (if 2 ≤ tickers.length then "compare" else "general")
  else if containsSub query_lower "news" then
    "news"
  else if ["market", "indices", "index", "nifty", "sensex"].any
      (fun k => containsSub query_lower k) then
    "market"
  else if (["profit", "financial", "valuation", "balance"].any
      (fun k => containsSub query_lower k)) && !tickers.isEmpty then
    "financials"
  else if (["price", "cmp", "quote", "trading at"].any
      (fun k => containsSub query_lower k)) && !tickers.isEmpty then
    "price"
  else if !tickers.isEmpty && (["long term", "short term", "buy", "sell"].any
      (fun k => containsSub query_lower k)) then
    "financials"
  else
    "general"

/-- Python `found.add x` observed through insertion order: Python `set.add` makes
the element a member once; this records first-insertion order. -/
def insertIfNew (x : String) (l : List String) : List String :=
  if x ∈ l then l else l ++ [x]

/-- The `.NS` / `.BO` / raw suffix loop of `FinancialAgent.extract_tickers`
(lines 70-80): the provider's fast-quote validation is the oracle `valid`;
the first candidate it accepts wins. -/
def resolveExternal (valid : String → Bool) (tok : String) : Option String :=
  if valid (tok ++ ".NS") then some (tok ++ ".NS")
  else if valid (tok ++ ".BO") then some (tok ++ ".BO")
  else if valid tok then some tok
  else none

/-- The external-validation candidates actually tried for one token (empty
for stop words and alias-table hits, which `continue` before the loop). -/
def tokenCalls (valid : String → Bool) (tok : String) : List String :=
  if tok ∈ COMMON_WORDS then []
  else
    match aliasLookup tok with
    | some _ => []
    | none =>
      if valid (tok ++ ".NS") then [tok ++ ".NS"]
      else if valid (tok ++ ".BO") then [tok ++ ".NS", tok ++ ".BO"]
      else [tok ++ ".NS", tok ++ ".BO", tok]

/-- All external validation calls issued while resolving a query's tokens. -/
def queryCalls (valid : String → Bool) (q : String) : List String :=
  ((findTokens q).map (tokenCalls valid)).flatten

/-- The token loop of `FinancialAgent.extract_tickers` (lines 58-80),
recording the members of the Python set `found` in first-insertion order. -/
def processTokens (valid : String → Bool) : List String → List String → List String
  | [], found => found
  | tok :: rest, found =>
    if tok ∈ COMMON_WORDS then processTokens valid rest found
    else
      match aliasLookup tok with
      | some mapped => processTokens valid rest (insertIfNew mapped found)
      | none =>
        match resolveExternal valid tok with
        | some cand => processTokens valid rest (insertIfNew cand found)
        | none => processTokens valid rest found

/-- The mathematical content of the set `found` built by `extract_tickers`:
its members, listed in first-insertion order. -/
def foundSet (valid : String → Bool) (q : String) : List String :=
  processTokens valid (findTokens q) []

/-- Contract of Python's `list(found)` on a set: some enumeration of the
members, each exactly once, in implementation-defined order. -/
def IsSetEnum (enum : List String → List String) : Prop :=
  ∀ l : List String, l.Nodup → (enum l).Perm l

/-- The resolver `FinancialAgent.extract_tickers`: resolve tokens into the set `found`,
then return `list(found)` under the set's enumeration order `enum`. -/
def extract_tickers (valid : String → Bool) (enum : List String → List String)
    (q : String) : List String :=
  enum (foundSet valid q)

/-- The data-fetch operations the router can dispatch to
(`YFinanceHelper` calls made inside `FinancialAgent.run`). -/
inductive Fetch where
  | price (ticker : String)
  | financials (ticker : String)
  | compare (tickers : List String)
  | marketSummary
  | news (ticker : String)
deriving DecidableEq, Repr

/-- The parts of the response envelope of `FinancialAgent.run` that the
verified claims talk about, plus the list of data fetches performed.
(The `steps` trace and the comparison `summary` narration are omitted:
no claim mentions them.) -/
structure RunResult where
  rtype : String
  intent : Option String
  message : Option String
  response : Option String
  fetches : List Fetch
deriving DecidableEq, Repr

/-- The canned out-of-scope message of `FinancialAgent.run`. -/
def oosMsg : String :=
  "⚠️ I’m a **Financial Markets Assistant**\n\n" ++
  "Try asking:\n• Price of INFY\n• Compare TCS and INFY\n• Give me market updates"

/-- The compare / market / news / out-of-scope / general tail of
`FinancialAgent.run` (lines 142-209), shared by both `primary` cases
because the price and financials branches also require a primary ticker. -/
def runTail (llm : String → String) (q ql : String) (tickers : List String) :
    RunResult :=
  let intent := classify_intent ql tickers
  if intent == "compare" then
    if tickers.length < 2 then
      ⟨"error", none, some "I need two stock symbols to compare.", none, []⟩
    else
      ⟨"tool", some "compare", none, none, [Fetch.compare tickers]⟩
  else if intent == "market" then
    ⟨"tool", some "market_summary", none, none, [Fetch.marketSummary]⟩
  else if intent == "news" then
    match tickers.head? with
    | none => ⟨"error", none, some "Please specify stock for news.", none, []⟩
    | some p => ⟨"tool", some "news", none, none, [Fetch.news p]⟩
  else if !(is_finance_query q) then
    ⟨"llm", some "out_of_scope", none, some oosMsg, []⟩
  else
    ⟨"llm", some "general", none, some (llm q), []⟩

/-- The router `FinancialAgent.run` (financial_agent.py lines 110-209). `valid` and
`enum` model the resolver's provider oracle and set enumeration; `llm` is
the LLM collaborator `AgentModel.query_model`. -/
def run (valid : String → Bool) (enum : List String → List String)
    (llm : String → String) (q : String) : RunResult :=
  let ql := pyLower q
  let tickers := extract_tickers valid enum q
  let intent := classify_intent ql tickers
  match tickers.head? with
  | some p =>
    if intent == "price" then
      ⟨"tool", some "price", none, none, [Fetch.price p]⟩
    else if intent == "financials" then
      ⟨"tool", some "financials", none, none, [Fetch.financials p]⟩
    else runTail llm q ql tickers
  | none => runTail llm q ql tickers

/-- Round a rational to the nearest integer, computed as
`⌊q + 1/2⌋ = (2*num + den) fdiv (2*den)`. -/
def roundQ (q : ℚ) : ℤ := Int.fdiv (2 * q.num + (q.den : ℤ)) (2 * (q.den : ℤ))

/-- Python `round(x, 2)` over ℚ (exact ties round up here where Python
rounds half-to-even; the claims never evaluate at a tie). -/
def round2 (q : ℚ) : ℚ := (roundQ (q * 100) : ℚ) / 100

/-- The `price_data` dict as `check_NAV_drop` reads it: `.get` of the two
price keys, `none` when the key is missing. -/
structure NavInput where
  current_price : Option ℚ
  previous_price : Option ℚ

/-- Result of `check_NAV_drop`: the `success=False` failure dict or the
`success=True` analysis dict. `drop_percentage` stores the rounded value
the code puts in the dict; `alert_triggered` and `severity` are computed
from the unrounded drop, as in the source. The `message` string is
omitted (no claim mentions it). -/
inductive NavResult where
  | failure (error : String)
  | success (drop_percentage threshold : ℚ) (alert_triggered : Bool)
      (severity : String) (current_price previous_price : ℚ)
deriving DecidableEq, Repr

/-- The analyzer `check_NAV_drop` (langgraph_integration.py lines 22-69). A zero
`previous_price` makes the Python division raise `ZeroDivisionError`,
which the function's `except` block converts into a failure dict; the
embedding returns that failure directly. -/
def check_NAV_drop (price_data : NavInput) (threshold : ℚ) : NavResult :=
  match price_data.current_price, price_data.previous_price with
  | none, _ => .failure "Missing price data"
  | some _, none => .failure "Missing price data"
  | some current, some previous =>
    if previous = 0 then .failure "float division by zero"
    else
      let drop_percentage := (previous - current) / previous * 100
      let alert_triggered := decide (threshold ≤ drop_percentage)
      let severity :=
        if threshold * (3/2) ≤ drop_percentage then "HIGH"
        else if threshold ≤ drop_percentage then "MEDIUM"
        else "LOW"
      .success (round2 drop_percentage) threshold alert_triggered severity
        current previous

/-- One upstream provider call: either raises (`error`) or returns. -/
abbrev Upstream (α : Type) := Except String α

/-- The fields of `YFinanceHelper.get_price`'s success dict that claims
refer to (volume, 52-week and chart-formatting fields are omitted: no
claim mentions them). -/
structure PriceData where
  ticker : String
  current_price : ℚ
  previous_price : ℚ
  change_pct : ℚ
deriving DecidableEq, Repr

/-- A data-fetch result: a success payload or the `{error: ...}` dict. -/
inductive FetchResult (α : Type) where
  | error (msg : String)
  | ok (payload : α)
deriving DecidableEq, Repr

/-- Does the returned dict carry the `'error'` key? -/
def FetchResult.hasErrorKey : FetchResult α → Bool
  | .error _ => true
  | .ok _ => false

/-- The fetcher `YFinanceHelper.get_price` (yf_utils.py lines 20-99). The provider's
`stock.history` call is `hist`, delivering the Close column (`error`
models a raised exception, an empty list models an empty frame). -/
def get_price (hist : Upstream (List ℚ)) (ticker : String) :
    FetchResult PriceData :=
  match hist with
  | .error e => .error ("Failed to fetch price data: " ++ e)
  | .ok closes =>
    match closes.reverse with
    | [] => .error ("No data found for ticker: " ++ ticker)
    | current :: older =>
      let previous := older.head?.getD current
      let change_pct := if previous ≠ 0 then (current - previous) / previous * 100 else 0
      .ok ⟨pyUpper ticker, round2 current, round2 previous, round2 change_pct⟩

/-- The financial statements payload: the latest-column line items of the
three statements plus the reporting currency, as `get_financials` shapes
them. -/
structure FinData where
  income_statement : List (String × Option ℚ)
  balance_sheet : List (String × Option ℚ)
  cash_flow : List (String × Option ℚ)
  currency : String
deriving DecidableEq, Repr

/-- Success payload of `get_financials`. -/
structure FinPayload where
  ticker : String
  data : FinData
deriving DecidableEq, Repr

/-- The fetcher `YFinanceHelper.get_financials` (yf_utils.py lines 183-210): every
upstream statement access sits inside one `try`, so a raise becomes the
tagged error dict. -/
def get_financials (stmts : Upstream FinData) (ticker : String) :
    FetchResult FinPayload :=
  match stmts with
  | .error e => .error ("Failed to fetch financial statements: " ++ e)
  | .ok d => .ok ⟨pyUpper ticker, d⟩

/-- One news article as `get_news` shapes it. -/
structure Article where
  title : String
  publisher : String
  link : String
deriving DecidableEq, Repr

/-- Success payload of `get_news`. -/
structure NewsPayload where
  ticker : String
  news_count : Nat
  articles : List Article
deriving DecidableEq, Repr

/-- The fetcher `YFinanceHelper.get_news` (yf_utils.py lines 215-241). -/
def get_news (news : Upstream (List Article)) (ticker : String)
    (limit : Nat) : FetchResult NewsPayload :=
  match news with
  | .error e => .error ("Failed to fetch news: " ++ e)
  | .ok articles =>
    let taken := articles.take limit
    .ok ⟨pyUpper ticker, taken.length, taken⟩

/-- The key statistics `compare_stocks` reads out of `get_key_stats`
(`'N/A'` defaults are modelled as `none`). -/
structure StatsData where
  market_cap : Option ℚ
  trailing_pe : Option ℚ
  profit_margins : Option ℚ
  return_on_equity : Option ℚ
  dividend_yield : Option ℚ
  recommendation : Option String
deriving DecidableEq, Repr

/-- The fetcher `YFinanceHelper.get_key_stats` (yf_utils.py lines 132-178), restricted
to the fields `compare_stocks` consumes. -/
def get_key_stats (info : Upstream StatsData) (ticker : String) :
    FetchResult (String × StatsData) :=
  match info with
  | .error e => .error ("Failed to fetch statistics: " ++ e)
  | .ok d => .ok (pyUpper ticker, d)

/-- One per-ticker row of the comparison table: every field read with
`.get`, so a failed sub-fetch yields `none` fields, not an error mark. -/
structure CompareEntry where
  ticker : String
  current_price : Option ℚ
  change_pct : Option ℚ
  market_cap : Option ℚ
  pe_ratio : Option ℚ
  profit_margin : Option ℚ
  roe : Option ℚ
  dividend_yield : Option ℚ
  recommendation : Option String
deriving DecidableEq, Repr

/-- Success payload of `compare_stocks`. -/
structure ComparePayload where
  comparison : List CompareEntry
  tickers : List String
deriving DecidableEq, Repr

/-- The fetcher `YFinanceHelper.compare_stocks` (yf_utils.py lines 282-310). The
per-ticker provider behaviour is `provStats` / `provHist`; each sub-fetch
catches its own upstream failure, and the comparison body reads the
sub-results only with `.get`, so the outer `except` never fires: the
embedding is total without an error branch of its own. -/
def compare_stocks (provStats : String → Upstream StatsData)
    (provHist : String → Upstream (List ℚ)) (tickers : List String) :
    FetchResult ComparePayload :=
  .ok
    { comparison := tickers.map (fun t =>
        let stats := get_key_stats (provStats t) t
        let price := get_price (provHist t) t
        { ticker := pyUpper t
          current_price := match price with
            | .ok d => some d.current_price | .error _ => none
          change_pct := match price with
            | .ok d => some d.change_pct | .error _ => none
          market_cap := match stats with
            | .ok d => d.2.market_cap | .error _ => none
          pe_ratio := match stats with
            | .ok d => d.2.trailing_pe | .error _ => none
          profit_margin := match stats with
            | .ok d => d.2.profit_margins | .error _ => none
          roe := match stats with
            | .ok d => d.2.return_on_equity | .error _ => none
          dividend_yield := match stats with
            | .ok d => d.2.dividend_yield | .error _ => none
          recommendation := match stats with
            | .ok d => d.2.recommendation | .error _ => none })
      tickers := tickers.map pyUpper }

/-- The six fixed indices `get_market_summary` polls, in source order. -/
def marketIndices : List (String × String) :=
  [("S&P 500", "^GSPC"), ("NASDAQ", "^IXIC"), ("Dow Jones", "^DJI"),
   ("NIFTY 50", "^NSEI"), ("SENSEX", "^BSESN"), ("Russell 2000", "^RUT")]

/-- One index row of the market summary. -/
structure IndexQuote where
  name : String
  value : ℚ
  change_pct : ℚ
  ticker : String
deriving DecidableEq, Repr

/-- Success payload of `get_market_summary` (the wall-clock `timestamp`
string is omitted: real time is outside the embedding and no claim
mentions it). -/
structure SummaryPayload where
  indices : List IndexQuote
deriving DecidableEq, Repr

/-- The fetcher `YFinanceHelper.get_market_summary` (yf_utils.py lines 315-355). The
inner per-index `try/except: continue` skips a failing index; an empty
frame is also skipped; the outer `except` never fires, so the embedding
is total without an error branch of its own. -/
def get_market_summary (prov : String → Upstream (List ℚ)) :
    FetchResult SummaryPayload :=
  .ok
    { indices := marketIndices.filterMap (fun nt =>
        match prov nt.2 with
        | .error _ => none
        | .ok closes =>
          match closes.reverse with
          | [] => none
          | current :: older =>
            let previous := older.head?.getD current
            let change_pct :=
              if previous ≠ 0 then (current - previous) / previous * 100 else 0
            some ⟨nt.1, round2 current, round2 change_pct, nt.2⟩) }

/-- Spec-side keyword test (section 4.2): the query contains one of the
keywords, as substring containment on the whole query. -/
def kwIn (ql : String) (ks : List String) : Prop :=
  ∃ k ∈ ks, containsSub ql k = true

instance (ql : String) (ks : List String) : Decidable (kwIn ql ks) :=
  inferInstanceAs (Decidable (∃ k ∈ ks, containsSub ql k = true))

/-- The intent classifier as spec section 4.2 words it: ordered
first-match-wins rules over keyword containment and the resolved ticker
count. Stated independently of `classify_intent` so that agreement with
the code is a theorem, not a definition. -/
def classify_intent_spec (ql : String) (ts : List String) : String :=
  if kwIn ql ["compare", "vs", "versus", "better than", "between"] then
    if 2 ≤ ts.length then "compare" else "general"
  else if kwIn ql ["news"] then "news"
  else if kwIn ql ["market", "indices", "index", "nifty", "sensex"] then "market"
  else if kwIn ql ["profit", "financial", "valuation", "balance"] ∧ ts ≠ [] then
    "financials"
  else if kwIn ql ["price", "cmp", "quote", "trading at"] ∧ ts ≠ [] then "price"
  else if ts ≠ [] ∧ kwIn ql ["long term", "short term", "buy", "sell"] then
    "financials"
  else "general"

/-- C2: for present prices with non-zero previous price, `check_NAV_drop`
succeeds with `drop_percentage = (previous - current) / previous * 100`
(rounded to 2 decimals in the returned dict), `alert_triggered` equal to
`drop_percentage >= threshold`, and the HIGH / MEDIUM / LOW severity
ladder over `threshold * 1.5`; in particular 95/100 at threshold 5 gives
5.0 / alert / MEDIUM and 80/100 gives 20.0 / HIGH. -/
theorem nav_drop_analysis_spec :
    (∀ current previous threshold : ℚ, previous ≠ 0 →
      ∃ alert severity,
        check_NAV_drop ⟨some current, some previous⟩ threshold =
          NavResult.success (round2 ((previous - current) / previous * 100))
            threshold alert severity current previous ∧
        (alert = true ↔ threshold ≤ (previous - current) / previous * 100) ∧
        (severity = "HIGH" ↔
          threshold * (3/2) ≤ (previous - current) / previous * 100) ∧
        (severity = "MEDIUM" ↔
          threshold ≤ (previous - current) / previous * 100 ∧
          (previous - current) / previous * 100 < threshold * (3/2)) ∧
        (severity = "LOW" ↔
          (previous - current) / previous * 100 < threshold ∧
          (previous - current) / previous * 100 < threshold * (3/2))) ∧
    check_NAV_drop ⟨some 95, some 100⟩ 5 =
      NavResult.success 5 5 true "MEDIUM" 95 100 ∧
    check_NAV_drop ⟨some 80, some 100⟩ 5 =
      NavResult.success 20 5 true "HIGH" 80 100 := by
  refine ⟨?_, ?_, ?_⟩
  · intro current previous threshold hp
    simp only [check_NAV_drop, if_neg hp]
    refine ⟨_, _, rfl, by simp, ?_, ?_, ?_⟩
    · split_ifs with h1 h2 <;> simp [h1]
    · split_ifs with h1 h2
      · simp [not_lt.mpr h1]
      · simp [h2, not_le.mp h1]
      · simp [h2]
    · split_ifs with h1 h2
      · simp [not_lt.mpr h1]
      · simp [not_lt.mpr h2]
      · simp [not_le.mp h1, not_le.mp h2]
  · norm_num [check_NAV_drop, round2, roundQ, (by decide : Int.fdiv 1001 2 = 500)]
  · norm_num [check_NAV_drop, round2, roundQ, (by decide : Int.fdiv 4001 2 = 2000)]

/-- Witness for C2: the general statement applied at the spec's own
example, current 95, previous 100, threshold 5. -/
theorem nav_drop_analysis_spec_witness :
    (100 : ℚ) ≠ 0 ∧
    ∃ alert severity,
      check_NAV_drop ⟨some 95, some 100⟩ 5 =
        NavResult.success (round2 ((100 - 95) / 100 * 100)) 5 alert severity
          95 100 ∧
      (alert = true ↔ (5 : ℚ) ≤ (100 - 95) / 100 * 100) ∧
      (severity = "HIGH" ↔ (5 : ℚ) * (3/2) ≤ (100 - 95) / 100 * 100) ∧
      (severity = "MEDIUM" ↔ (5 : ℚ) ≤ (100 - 95) / 100 * 100 ∧
        (100 - 95 : ℚ) / 100 * 100 < 5 * (3/2)) ∧
      (severity = "LOW" ↔ (100 - 95 : ℚ) / 100 * 100 < 5 ∧
        (100 - 95 : ℚ) / 100 * 100 < 5 * (3/2)) :=
  ⟨by norm_num, nav_drop_analysis_spec.1 95 100 5 (by norm_num)⟩

/-- C5: a present current price with `previous_price = 0` yields the
failure dict (the Python `ZeroDivisionError` is caught inside the
function), never an escaping arithmetic exception. -/
theorem nav_drop_zero_previous_fails :
    ∀ current threshold : ℚ,
      check_NAV_drop ⟨some current, some 0⟩ threshold =
        NavResult.failure "float division by zero" := by
  intro current threshold
  simp [check_NAV_drop]

/-- C6 counterexample: at threshold `-4` (the `threshold` parameter of
`check_NAV_drop` is unconstrained), a 5% price *rise* gives
`alert_triggered = false` but `severity = "HIGH"`, contradicting the
claimed equivalence for every threshold. -/
theorem nav_severity_alert_counterexample :
    check_NAV_drop ⟨some 105, some 100⟩ (-4) =
      NavResult.success (-5) (-4) false "HIGH" 105 100 := by
  norm_num [check_NAV_drop, round2, roundQ,
    (by decide : Int.fdiv (-999) 2 = -500)]

/-- C6 amended: for every *non-negative* threshold (which the API layer's
`FinancialGraphRequest` validator guarantees, requiring `0 < threshold ≤
100`), a successful result has `alert_triggered = true` exactly when
severity is MEDIUM or HIGH, and `alert_triggered = false` exactly when
severity is LOW. -/
theorem nav_severity_alert_consistent :
    ∀ (current previous threshold : ℚ), previous ≠ 0 → 0 ≤ threshold →
      ∀ dp th alert severity,
        check_NAV_drop ⟨some current, some previous⟩ threshold =
          NavResult.success dp th alert severity current previous →
        (alert = true ↔ (severity = "MEDIUM" ∨ severity = "HIGH")) ∧
        (alert = false ↔ severity = "LOW") := by
  intro current previous threshold hp ht dp th alert severity h
  simp only [check_NAV_drop, if_neg hp, NavResult.success.injEq] at h
  obtain ⟨-, -, halert, hsev, -, -⟩ := h
  subst halert hsev
  constructor
  · split_ifs with h1 h2
    · simpa using le_trans (by linarith) h1
    · simpa using h2
    · simpa using h2
  · split_ifs with h1 h2
    · simpa using le_trans (by linarith) h1
    · simpa using h2
    · simpa using h2

/-- Witness for C6 amended: instantiated at the spec's MEDIUM example. -/
theorem nav_severity_alert_consistent_witness :
    (100 : ℚ) ≠ 0 ∧ (0 : ℚ) ≤ 5 ∧
    ((true = true ↔ ("MEDIUM" = "MEDIUM" ∨ "MEDIUM" = "HIGH")) ∧
     (true = false ↔ "MEDIUM" = "LOW")) :=
  ⟨by norm_num, by norm_num,
   nav_severity_alert_consistent 95 100 5 (by norm_num) (by norm_num)
     5 5 true "MEDIUM"
     (by norm_num [check_NAV_drop, round2, roundQ,
       (by decide : Int.fdiv 1001 2 = 500)])⟩

/-- C1: the code's `classify_intent` returns exactly the label given by
the ordered first-match-wins keyword rules of spec section 4.2 (all
keyword checks being substring containment on the whole query). -/
lemma any_iff_kwIn (ql : String) (ks : List String) :
    (ks.any fun k => containsSub ql k) = true ↔ kwIn ql ks := by
  simp [kwIn, List.any_eq_true]

lemma not_isEmpty_iff_ne_nil (ts : List String) :
    (!ts.isEmpty) = true ↔ ts ≠ [] := by
  cases ts <;> simp

lemma containsSub_iff_kwIn_single (ql k : String) :
    containsSub ql k = true ↔ kwIn ql [k] := by
  simp [kwIn]

theorem classify_intent_matches_spec :
    ∀ (query_lower : String) (tickers : List String),
      classify_intent query_lower tickers =
        classify_intent_spec query_lower tickers := by
  intro ql ts
  unfold classify_intent classify_intent_spec
  simp only [Bool.and_eq_true, any_iff_kwIn, not_isEmpty_iff_ne_nil,
    containsSub_iff_kwIn_single]

/-- C10: `classify_intent` is total with range exactly the six labels
compare / news / market / financials / price / general — each label is
attained, and `out_of_scope` / `error` are never produced (those appear
only in the Router's envelopes). -/
theorem classify_intent_range_six :
    (∀ (ql : String) (ts : List String),
      classify_intent ql ts ∈
        (["compare", "news", "market", "financials", "price", "general"] :
          List String)) ∧
    (∃ ql ts, classify_intent ql ts = "compare") ∧
    (∃ ql ts, classify_intent ql ts = "news") ∧
    (∃ ql ts, classify_intent ql ts = "market") ∧
    (∃ ql ts, classify_intent ql ts = "financials") ∧
    (∃ ql ts, classify_intent ql ts = "price") ∧
    (∃ ql ts, classify_intent ql ts = "general") ∧
    (∀ (ql : String) (ts : List String),
      classify_intent ql ts ≠ "out_of_scope" ∧
      classify_intent ql ts ≠ "error") := by
  refine ⟨?_, ⟨"compare", ["A", "B"], by decide⟩, ⟨"news", [], by decide⟩,
    ⟨"market", [], by decide⟩, ⟨"financial", ["A"], by decide⟩,
    ⟨"price", ["A"], by decide⟩, ⟨"", [], by decide⟩, ?_⟩
  · intro ql ts
    unfold classify_intent
    split_ifs <;> simp
  · intro ql ts
    unfold classify_intent
    split_ifs <;> simp

/-- When a query classifies as `general`, the router performs no data
fetch: it answers with the out-of-scope canned response when no finance
keyword is present, and with a general LLM response otherwise. -/
lemma run_general (valid : String → Bool) (enum : List String → List String)
    (llm : String → String) (q : String)
    (h : classify_intent (pyLower q) (extract_tickers valid enum q) =
      "general") :
    run valid enum llm q =
      if is_finance_query q then
        ⟨"llm", some "general", none, some (llm q), []⟩
      else
        ⟨"llm", some "out_of_scope", none, some oosMsg, []⟩ := by
  unfold run runTail
  simp only [h]
  cases hh : (extract_tickers valid enum q).head? <;>
    cases hf : is_finance_query q <;>
    simp [hf]

/-- C3 counterexample: `"price of TCS"` contains no finance keyword, yet
`run` does not return the out-of-scope response — the out-of-scope check
sits *after* the intent dispatch, so the query classifies as `price` and
a price fetch is performed. -/
theorem out_of_scope_shortcircuit_counterexample :
    is_finance_query "price of TCS" = false ∧
    run (fun _ => false) id (fun _ => "") "price of TCS" =
      ⟨"tool", some "price", none, none, [Fetch.price "TCS.NS"]⟩ := by
  constructor
  · decide
  · decide

/-- C3 amended: a query with no finance keyword receives the canned
out-of-scope response (with no data fetch) exactly in the case that its
classified intent is `general`; the short-circuit happens after, not
before, the classifier dispatch. -/
theorem out_of_scope_only_for_general_intent :
    ∀ (valid : String → Bool) (enum : List String → List String)
      (llm : String → String) (q : String),
      is_finance_query q = false →
      classify_intent (pyLower q) (extract_tickers valid enum q) =
        "general" →
      run valid enum llm q =
        ⟨"llm", some "out_of_scope", none, some oosMsg, []⟩ := by
  intro valid enum llm q h1 h2
  rw [run_general valid enum llm q h2, if_neg]
  simp [h1]

/-- Witness for C3 amended at the non-finance query `"hello there"`. -/
theorem out_of_scope_only_for_general_intent_witness :
    is_finance_query "hello there" = false ∧
    classify_intent (pyLower "hello there")
      (extract_tickers (fun _ => false) id "hello there") = "general" ∧
    run (fun _ => false) id (fun _ => "") "hello there" =
      ⟨"llm", some "out_of_scope", none, some oosMsg, []⟩ :=
  ⟨by decide, by decide,
   out_of_scope_only_for_general_intent (fun _ => false) id (fun _ => "")
     "hello there" (by decide) (by decide)⟩

/-- C4 counterexample: `"compare TCS"` has a comparison keyword and
resolves exactly one ticker, but the router returns the out-of-scope LLM
envelope, not the fixed "I need two stock symbols to compare." error
(which is unreachable: the classifier already degraded the intent to
`general`). -/
theorem compare_one_ticker_counterexample :
    containsSub (pyLower "compare TCS") "compare" = true ∧
    extract_tickers (fun _ => false) id "compare TCS" = ["TCS.NS"] ∧
    run (fun _ => false) id (fun _ => "") "compare TCS" =
      ⟨"llm", some "out_of_scope", none, some oosMsg, []⟩ :=
  ⟨by decide, by decide, by decide⟩

/-- C4 amended: a query with a comparison keyword and exactly one
resolved ticker classifies as `general`, so the router performs no fetch
at all (in particular never invokes `compare_stocks`) and never returns
the two-ticker error message — that error branch is dead code, because
`classify_intent` returns `compare` only when two or more tickers
resolved. -/
theorem compare_one_ticker_degrades_to_general :
    ∀ (valid : String → Bool) (enum : List String → List String)
      (llm : String → String) (q : String),
      (["compare", "vs", "versus", "better than", "between"].any
        (fun k => containsSub (pyLower q) k)) = true →
      (extract_tickers valid enum q).length = 1 →
      classify_intent (pyLower q) (extract_tickers valid enum q) =
        "general" ∧
      (run valid enum llm q).fetches = [] ∧
      (run valid enum llm q).message ≠
        some "I need two stock symbols to compare." := by
  intro valid enum llm q hkw hlen
  have hcls : classify_intent (pyLower q) (extract_tickers valid enum q) =
      "general" := by
    unfold classify_intent
    rw [if_pos hkw, hlen, if_neg (by norm_num)]
  refine ⟨hcls, ?_, ?_⟩ <;>
    rw [run_general valid enum llm q hcls] <;>
    split_ifs <;> simp

/-- Witness for C4 amended at `"compare TCS"` with an all-failing
validation oracle. -/
theorem compare_one_ticker_degrades_witness :
    (["compare", "vs", "versus", "better than", "between"].any
      (fun k => containsSub (pyLower "compare TCS") k)) = true ∧
    (extract_tickers (fun _ => false) id "compare TCS").length = 1 ∧
    (classify_intent (pyLower "compare TCS")
        (extract_tickers (fun _ => false) id "compare TCS") = "general" ∧
      (run (fun _ => false) id (fun _ => "") "compare TCS").fetches = [] ∧
      (run (fun _ => false) id (fun _ => "") "compare TCS").message ≠
        some "I need two stock symbols to compare.") :=
  ⟨by decide, by decide,
   compare_one_ticker_degrades_to_general (fun _ => false) id (fun _ => "")
     "compare TCS" (by decide) (by decide)⟩

lemma insertIfNew_nodup (x : String) (l : List String) (h : l.Nodup) :
    (insertIfNew x l).Nodup := by
  unfold insertIfNew
  split_ifs with hx
  · exact h
  · simp [List.nodup_append, h, hx]

lemma processTokens_nodup (valid : String → Bool) (toks : List String) :
    ∀ acc : List String, acc.Nodup → (processTokens valid toks acc).Nodup := by
  induction toks with
  | nil => intro acc h; simpa [processTokens] using h
  | cons t rest ih =>
    intro acc h
    unfold processTokens
    split_ifs with hc
    · exact ih _ h
    · cases ha : aliasLookup t with
      | some m => simp only [ha]; exact ih _ (insertIfNew_nodup _ _ h)
      | none =>
        simp only [ha]
        cases hr : resolveExternal valid t with
        | some c => simp only [hr]; exact ih _ (insertIfNew_nodup _ _ h)
        | none => simp only [hr]; exact ih _ h

lemma foundSet_nodup (valid : String → Bool) (q : String) :
    (foundSet valid q).Nodup :=
  processTokens_nodup valid (findTokens q) [] List.nodup_nil

/-- C7 counterexample: the resolver stores symbols in a Python `set`, so
`list(found)` carries no order guarantee; under the legitimate set
enumeration that happens to reverse insertion order, `"Compare TCS and
INFY"` yields `["INFY.NS", "TCS.NS"]`, not the claimed insertion-order
list `["TCS.NS", "INFY.NS"]`. -/
theorem extract_tickers_order_counterexample :
    IsSetEnum List.reverse ∧
    extract_tickers (fun _ => false) List.reverse "Compare TCS and INFY" =
      ["INFY.NS", "TCS.NS"] ∧
    extract_tickers (fun _ => false) List.reverse "Compare TCS and INFY" ≠
      ["TCS.NS", "INFY.NS"] :=
  ⟨fun l _ => l.reverse_perm, by decide, by decide⟩

/-- C7 amended: `extract_tickers` returns the resolved symbols as a
duplicate-free list that is a permutation of the insertion-order
resolution list — the order itself is the set's unspecified enumeration
order; for `"Compare TCS and INFY"` the result is a permutation of
`["TCS.NS", "INFY.NS"]`. -/
theorem extract_tickers_set_semantics :
    ∀ (valid : String → Bool) (enum : List String → List String)
      (q : String), IsSetEnum enum →
      (extract_tickers valid enum q).Nodup ∧
      (extract_tickers valid enum q).Perm (foundSet valid q) ∧
      (extract_tickers (fun _ => false) enum "Compare TCS and INFY").Perm
        ["TCS.NS", "INFY.NS"] := by
  intro valid enum q he
  have hn : (foundSet valid q).Nodup := foundSet_nodup valid q
  have hp : (enum (foundSet valid q)).Perm (foundSet valid q) := he _ hn
  refine ⟨hp.nodup_iff.mpr hn, hp, ?_⟩
  have hfs : foundSet (fun _ => false) "Compare TCS and INFY" =
      ["TCS.NS", "INFY.NS"] := by decide
  unfold extract_tickers
  rw [hfs]
  exact he _ (by decide)

/-- Witness for C7 amended under the identity enumeration. -/
theorem extract_tickers_set_semantics_witness :
    IsSetEnum id ∧
    ((extract_tickers (fun _ => false) id "Compare TCS and INFY").Nodup ∧
     (extract_tickers (fun _ => false) id "Compare TCS and INFY").Perm
       (foundSet (fun _ => false) "Compare TCS and INFY") ∧
     (extract_tickers (fun _ => false) id "Compare TCS and INFY").Perm
       ["TCS.NS", "INFY.NS"]) :=
  ⟨fun l _ => List.Perm.refl l,
   extract_tickers_set_semantics (fun _ => false) id "Compare TCS and INFY"
     (fun l _ => List.Perm.refl l)⟩

/-- C8: a token found in the alias table (and not a stop word) resolves to
exactly its mapped symbol with no external validation call; for
`"Price of SBI"` the resolver returns `["SBIN.NS"]` with an empty
validation-call log (for every oracle and every set enumeration), and the
classifier then returns `price`. -/
theorem alias_hits_skip_validation :
    ∀ (valid : String → Bool) (tok mapped : String),
      tok ∉ COMMON_WORDS → aliasLookup tok = some mapped →
      (processTokens valid [tok] [] = [mapped] ∧
       tokenCalls valid tok = []) ∧
      (foundSet valid "Price of SBI" = ["SBIN.NS"] ∧
       queryCalls valid "Price of SBI" = [] ∧
       (∀ enum, IsSetEnum enum →
         extract_tickers valid enum "Price of SBI" = ["SBIN.NS"]) ∧
       classify_intent (pyLower "Price of SBI") ["SBIN.NS"] = "price") := by
  intro valid tok mapped h1 h2
  have hfs : foundSet valid "Price of SBI" = ["SBIN.NS"] := rfl
  refine ⟨⟨?_, ?_⟩, hfs, rfl, ?_, by decide⟩
  · unfold processTokens
    rw [if_neg h1]
    simp only [h2]
    simp [processTokens, insertIfNew]
  · unfold tokenCalls
    rw [if_neg h1]
    simp [h2]
  · intro enum he
    have := he ["SBIN.NS"] (by decide)
    unfold extract_tickers
    rw [hfs]
    exact List.perm_singleton.mp this

/-- Witness for C8 at token `"SBI"` with an all-failing oracle. -/
theorem alias_hits_skip_validation_witness :
    ("SBI" ∉ COMMON_WORDS) ∧ aliasLookup "SBI" = some "SBIN.NS" ∧
    ((processTokens (fun _ => false) ["SBI"] [] = ["SBIN.NS"] ∧
      tokenCalls (fun _ => false) "SBI" = []) ∧
     (foundSet (fun _ => false) "Price of SBI" = ["SBIN.NS"] ∧
      queryCalls (fun _ => false) "Price of SBI" = [] ∧
      (∀ enum, IsSetEnum enum →
        extract_tickers (fun _ => false) enum "Price of SBI" =
          ["SBIN.NS"]) ∧
      classify_intent (pyLower "Price of SBI") ["SBIN.NS"] = "price")) :=
  ⟨by decide, by decide,
   alias_hits_skip_validation (fun _ => false) "SBI" "SBIN.NS"
     (by decide) (by decide)⟩

/-- C9 counterexample: with a provider that raises on every call,
`compare_stocks` still returns a success-shaped dict whose per-ticker
fields are all `None` — no `'error'` key — so an upstream raise does not
always surface as a tagged error result. -/
theorem compare_stocks_untagged_counterexample :
    compare_stocks (fun _ => Except.error "boom")
        (fun _ => Except.error "boom") ["TCS"] =
      FetchResult.ok
        ⟨[⟨"TCS", none, none, none, none, none, none, none, none⟩],
         ["TCS"]⟩ ∧
    (compare_stocks (fun _ => Except.error "boom")
        (fun _ => Except.error "boom") ["TCS"]).hasErrorKey = false :=
  ⟨by decide, by decide⟩

/-- C9 amended: every data-fetch operation is total and returns a dict
(never an escaping exception); `get_price`, `get_financials` and
`get_news` convert an upstream raise (and, for prices, empty data) into
an `'error'`-tagged dict, while `compare_stocks` and `get_market_summary`
never return an `'error'`-tagged dict at all — they absorb upstream
failures into `None`-valued or omitted entries. -/
theorem fetch_operations_error_discipline :
    (∀ e ticker, get_price (Except.error e) ticker =
      FetchResult.error ("Failed to fetch price data: " ++ e)) ∧
    (∀ ticker, get_price (Except.ok []) ticker =
      FetchResult.error ("No data found for ticker: " ++ ticker)) ∧
    (∀ e ticker, get_financials (Except.error e) ticker =
      FetchResult.error ("Failed to fetch financial statements: " ++ e)) ∧
    (∀ e ticker limit, get_news (Except.error e) ticker limit =
      FetchResult.error ("Failed to fetch news: " ++ e)) ∧
    (∀ provStats provHist tickers,
      (compare_stocks provStats provHist tickers).hasErrorKey = false) ∧
    (∀ prov, (get_market_summary prov).hasErrorKey = false) :=
  ⟨fun _ _ => rfl, fun _ => rfl, fun _ _ => rfl, fun _ _ _ => rfl,
   fun _ _ _ => rfl, fun _ => rfl⟩
